import Mathlib

/-!
# Helios orchestration engine — verification development

Shallow embedding of the Helios orchestration core:

* the retry wrapper `BaseAgent.executeWithRetry`
  (`packages/backend/src/agents/BaseAgent.ts`),
* the shared-state merge `OrchestratorGraph.updateState`,
  the routing machine `routeToNextAgent`, the recovery policy
  (`handleExecutionError` / `canRecover` / `getAlternativeAgent`) and the
  main loop `run` (`packages/backend/src/routes/projects.ts`),
* the default worker bodies `AgentNode.performRoleSpecificExecution`
  (`packages/backend/src/orchestrator/AgentNode.ts`).

Wall-clock values (`Date.now()`, durations) are abstracted by a `Nat` tick
threaded through the loop; database/WebSocket logging and agent status
fields are side channels not reflected in any proved statement and are
omitted.  JavaScript `Map`s are modelled as association lists, `undefined`
as `Option.none`, thrown errors as `Except.error`.
-/

namespace Helios

/-! ## Retry wrapper — `BaseAgent.executeWithRetry` (BaseAgent.ts 139–180)

The TypeScript method keeps a per-operation-name attempt counter in the
`retryCount : Map<string, number>` field.  On entry it reads the counter
(defaulting to 0); it invokes the operation; on success it deletes the
counter and returns; on failure, while `attempts < maxRetries` it stores
`attempts + 1`, sleeps `retryDelay * 2 ^ attempts`, and recurses; once
`attempts < maxRetries` fails it rethrows the caught error.

The operation is modelled as `op : Nat → Except ε α`, `op i` being the
outcome of its `i`-th invocation inside this call; the counter entry for
the one operation name in play is the `counter : Option Nat` argument.
The outcome collects the returned/thrown result, the counter entry left
behind, the backoff sleeps performed, and how often `op` was invoked. -/

/-- Observable outcome of one `executeWithRetry` call. -/
structure RetryOutcome (ε α : Type) where
  result : Except ε α
  counter : Option Nat
  delays : List Nat
  invocations : Nat
  deriving Repr

/-- `BaseAgent.executeWithRetry`, translated from BaseAgent.ts 139–180. -/
def executeWithRetry (maxRetries retryDelay : Nat) (op : Nat → Except ε α)
    (counter : Option Nat) : RetryOutcome ε α :=
  -- const attempts = this.retryCount.get(operationName) || 0;
  match op 0 with
  | .ok v =>
      -- this.retryCount.delete(operationName); return result;
      { result := .ok v, counter := none, delays := [], invocations := 1 }
  | .error e =>
      if h : counter.getD 0 < maxRetries then
        -- this.retryCount.set(operationName, attempts + 1);
        -- await this.sleep(this.config.retryDelay * Math.pow(2, attempts));
        -- return this.executeWithRetry(operation, operationName);
        let rest := executeWithRetry maxRetries retryDelay (fun i => op (i + 1))
          (some (counter.getD 0 + 1))
        { result := rest.result, counter := rest.counter,
          delays := retryDelay * 2 ^ counter.getD 0 :: rest.delays,
          invocations := rest.invocations + 1 }
      else
        -- Max retries exceeded: throw error;  (counter entry left untouched)
        { result := .error e, counter := counter, delays := [], invocations := 1 }
termination_by maxRetries + 1 - counter.getD 0
decreasing_by simp; omega

/-! ## Shared state data model (agents/types.ts, orchestrator vocabulary) -/

/-- `AgentRole` enum (types.ts); string values are produced by `roleName`. -/
inductive AgentRole where
  | orchestrator
  | project_analyzer
  | task_decomposer
  | frontend_engineer
  | backend_engineer
  | fullstack_engineer
  | devops_engineer
  | qa_engineer
  | documentation_writer
  | code_reviewer
  deriving DecidableEq, Repr

/-- The string value of each `AgentRole` enum member. -/
def roleName : AgentRole → String
  | .orchestrator => "orchestrator"
  | .project_analyzer => "project_analyzer"
  | .task_decomposer => "task_decomposer"
  | .frontend_engineer => "frontend_engineer"
  | .backend_engineer => "backend_engineer"
  | .fullstack_engineer => "fullstack_engineer"
  | .devops_engineer => "devops_engineer"
  | .qa_engineer => "qa_engineer"
  | .documentation_writer => "documentation_writer"
  | .code_reviewer => "code_reviewer"

/-- Task status union `'pending' | 'in_progress' | 'completed' | 'failed'`. -/
inductive TaskStatus where
  | pending | in_progress | completed | failed
  deriving DecidableEq, Repr

/-- `Task` (types.ts); `Date` fields are ticks, `metadata` omitted. -/
structure Task where
  id : String
  projectId : String
  parentTaskId : Option String := none
  title : String
  description : String
  assignedAgent : AgentRole
  status : TaskStatus
  dependencies : List String := []
  artifacts : List String := []
  createdAt : Nat := 0
  updatedAt : Nat := 0
  deriving DecidableEq, Repr

/-- `Artifact` (types.ts); `Date` fields are ticks, `metadata` omitted. -/
structure Artifact where
  id : String
  projectId : String
  taskId : Option String := none
  agentId : String
  type : String
  name : String
  content : String
  version : Nat
  createdAt : Nat := 0
  updatedAt : Nat := 0
  deriving DecidableEq, Repr

/-- `AgentMessage` (types.ts).  The TS fields `from`/`to` are Lean keywords
and are rendered `sender`/`recipient`; `type` is rendered `kind`. -/
structure AgentMessage where
  id : String
  sender : AgentRole
  recipient : String
  kind : String
  content : String
  timestamp : Nat
  deriving DecidableEq, Repr

/-- `HandoffRecord` (types.ts). -/
structure HandoffRecord where
  from_agent : AgentRole
  to_agent : AgentRole
  reason : String
  task_id : Option String := none
  timestamp : Nat := 0
  deriving DecidableEq, Repr

/-- JavaScript errors as the orchestrator observes them: either a plain
`Error` or an `AgentError` with `agentRole`, optional `code` and an
optional `details` payload (rendered as its `originalError`/`lastError`
string when present). -/
inductive JsError where
  | plain (message : String)
  | agent (message : String) (agentRole : AgentRole) (code : Option String)
      (details : Option String)
  deriving DecidableEq, Repr

/-- The `message` property of an error. -/
def JsError.message : JsError → String
  | .plain m => m
  | .agent m _ _ _ => m

/-- The object returned by `generateExecutionSummary` (projects.ts), stored
into `finalOutput` by `finalizeExecution`; the wall-clock `duration` field
is omitted. -/
structure ExecutionSummary where
  projectId : String
  projectName : String
  completed : Bool
  agentsExecuted : Nat
  successfulExecutions : Nat
  failedExecutions : Nat
  artifactsGenerated : Nat
  tasksCompleted : Nat
  errors : List String
  deriving DecidableEq, Repr

/-- The role-scoped entries the CodeReviewer stores in `agentStates`
(`reviewPassed`, `issueType`); other roles' entries carry no field the
orchestrator reads. -/
structure AgentSubState where
  reviewPassed : Option Bool := none
  issueType : Option String := none
  deriving DecidableEq, Repr

/-- A JavaScript `Map` as an association list; `set` replaces in place or
appends, `get` returns the first (unique) binding. -/
def mapSet [DecidableEq κ] (m : List (κ × β)) (k : κ) (v : β) : List (κ × β) :=
  if m.any (fun p => p.1 = k) then
    m.map (fun p => if p.1 = k then (k, v) else p)
  else m ++ [(k, v)]

/-- `Map.get`: the value bound to `k`, if the key is present. -/
def mapGet [DecidableEq κ] (m : List (κ × β)) (k : κ) : Option β :=
  (m.find? (fun p => p.1 = k)).map Prod.snd

/-- `Map.has`. -/
def mapHas [DecidableEq κ] (m : List (κ × β)) (k : κ) : Bool :=
  m.any (fun p => p.1 = k)

/-- `HeliosSwarmState` (orchestrator vocabulary, types.ts).  `Map`s are
association lists; `agentStates` values are `Option AgentSubState` because
`Map.set(role, undefined)` creates a key bound to `undefined`. -/
structure HeliosSwarmState where
  projectId : String
  projectName : String
  projectDescription : String
  active_agent : Option AgentRole
  messages : List AgentMessage
  tasks : List Task
  currentTaskId : Option String
  taskDependencies : List (String × List String)
  handoff_history : Option (List HandoffRecord) := none
  artifacts : List (String × Artifact)
  agentStates : List (AgentRole × Option AgentSubState)
  errors : List JsError
  createdAt : Nat
  updatedAt : Nat
  completed : Bool
  finalOutput : Option ExecutionSummary := none
  nextAgent : Option AgentRole := none
  deriving DecidableEq, Repr

/-- A `Partial<HeliosSwarmState>`: an outer `none` means the key is absent
from the update object; for fields that are themselves nullable/optional
in the state, the inner `Option` is the stored value. -/
structure StatePartial where
  projectId : Option String := none
  projectName : Option String := none
  projectDescription : Option String := none
  active_agent : Option (Option AgentRole) := none
  messages : Option (List AgentMessage) := none
  tasks : Option (List Task) := none
  currentTaskId : Option (Option String) := none
  taskDependencies : Option (List (String × List String)) := none
  handoff_history : Option (List HandoffRecord) := none
  artifacts : Option (List (String × Artifact)) := none
  agentStates : Option (List (AgentRole × Option AgentSubState)) := none
  errors : Option (List JsError) := none
  createdAt : Option Nat := none
  updatedAt : Option Nat := none
  completed : Option Bool := none
  finalOutput : Option (Option ExecutionSummary) := none
  nextAgent : Option (Option AgentRole) := none
  deriving DecidableEq, Repr

/-- `OrchestratorGraph.updateState` (projects.ts 702–734).  `messages`,
`tasks` and `errors` are concatenated; `artifacts` and `taskDependencies`
are merged key-by-key via `Map.set`; `agentStates` is skipped; every other
present key — `handoff_history` included, it has no dedicated branch —
falls into the `key !== 'agentStates'` arm and is assigned directly.
`updatedAt` is always refreshed (`now` models `new Date()`). -/
def updateState (s : HeliosSwarmState) (u : StatePartial) (now : Nat) :
    HeliosSwarmState :=
  { s with
    messages := match u.messages with
      | some ms => s.messages ++ ms
      | none => s.messages
    tasks := match u.tasks with
      | some ts => s.tasks ++ ts
      | none => s.tasks
    errors := match u.errors with
      | some es => s.errors ++ es
      | none => s.errors
    artifacts := match u.artifacts with
      | some arts => arts.foldl (fun m p => mapSet m p.1 p.2) s.artifacts
      | none => s.artifacts
    taskDependencies := match u.taskDependencies with
      | some deps => deps.foldl (fun m p => mapSet m p.1 p.2) s.taskDependencies
      | none => s.taskDependencies
    -- direct assignments for every other present key
    projectId := u.projectId.getD s.projectId
    projectName := u.projectName.getD s.projectName
    projectDescription := u.projectDescription.getD s.projectDescription
    active_agent := u.active_agent.getD s.active_agent
    currentTaskId := u.currentTaskId.getD s.currentTaskId
    handoff_history := match u.handoff_history with
      | some h => some h
      | none => s.handoff_history
    createdAt := u.createdAt.getD s.createdAt
    completed := u.completed.getD s.completed
    finalOutput := u.finalOutput.getD s.finalOutput
    nextAgent := u.nextAgent.getD s.nextAgent
    updatedAt := now }

/-! ## Default worker bodies — `AgentNode.performRoleSpecificExecution`
(AgentNode.ts 93–261).  A default worker receives the full state object,
spreads it into its partial update (`const updatedState = { ...state }`),
appends one notice to a copy of the whole message list, and (per role)
sets `nextAgent` or `completed`. -/

/-- The spread `{ ...state }`: every key of the state object becomes a
present key of the partial update, with its current value. -/
def spreadState (s : HeliosSwarmState) : StatePartial :=
  { projectId := some s.projectId
    projectName := some s.projectName
    projectDescription := some s.projectDescription
    active_agent := some s.active_agent
    messages := some s.messages
    tasks := some s.tasks
    currentTaskId := some s.currentTaskId
    taskDependencies := some s.taskDependencies
    handoff_history := s.handoff_history
    artifacts := some s.artifacts
    agentStates := some s.agentStates
    errors := some s.errors
    createdAt := some s.createdAt
    updatedAt := some s.updatedAt
    completed := some s.completed
    finalOutput := some s.finalOutput
    nextAgent := some s.nextAgent }

/-- The `content` string of the one message each default worker appends. -/
def defaultMessageContent : AgentRole → String
  | .project_analyzer => "Project analysis completed"
  | .task_decomposer => "Task decomposition completed"
  | .frontend_engineer => "Frontend implementation completed"
  | .backend_engineer => "Backend implementation completed"
  | .fullstack_engineer => "Full-stack implementation completed"
  | .qa_engineer => "Testing completed"
  | .code_reviewer => "Code review completed"
  | .documentation_writer => "Documentation completed"
  | .devops_engineer => "Deployment configuration completed"
  | r => roleName r ++ " completed task"

/-- The message a default worker appends
(`{ id: msg-Date.now(), from: role, to: 'all', type: 'event', ... }`). -/
def defaultMessage (role : AgentRole) (now : Nat) : AgentMessage :=
  { id := "msg-" ++ toString now
    sender := role
    recipient := "all"
    kind := "event"
    content := defaultMessageContent role
    timestamp := now }

/-- `AgentNode.performRoleSpecificExecution` (AgentNode.ts 93–261). -/
def performRoleSpecificExecution (role : AgentRole) (s : HeliosSwarmState)
    (now : Nat) : StatePartial :=
  let base := { spreadState s with
    messages := some (s.messages ++ [defaultMessage role now])
    updatedAt := some now }
  match role with
  | .project_analyzer => { base with nextAgent := some (some .task_decomposer) }
  | .task_decomposer => { base with nextAgent := some (some .backend_engineer) }
  | .frontend_engineer => { base with nextAgent := some (some .qa_engineer) }
  | .backend_engineer => { base with nextAgent := some (some .frontend_engineer) }
  | .fullstack_engineer => { base with nextAgent := some (some .qa_engineer) }
  | .qa_engineer => { base with nextAgent := some (some .code_reviewer) }
  | .code_reviewer => { base with nextAgent := some (some .documentation_writer) }
  | .documentation_writer => { base with completed := some true }
  | .devops_engineer => { base with nextAgent := some (some .qa_engineer) }
  | _ => base

/-! ## Routing and recovery — `OrchestratorGraph` (projects.ts) -/

/-- `String.toLowerCase()` (ASCII, which covers every keyword probed). -/
def lowerStr (s : String) : String := s.map Char.toLower

/-- JavaScript `haystack.includes(needle)`. -/
def strIncludes (haystack needle : String) : Bool :=
  decide (needle.toList <:+: haystack.toList)

/-- `requiresFullstack` (projects.ts 831–836). -/
def requiresFullstack (desc : String) : Bool :=
  let d := lowerStr desc
  strIncludes d "fullstack" || strIncludes d "full-stack" ||
    (strIncludes d "frontend" && strIncludes d "backend")

/-- `requiresDevOps` (projects.ts 841–848). -/
def requiresDevOps (desc : String) : Bool :=
  let d := lowerStr desc
  strIncludes d "deploy" || strIncludes d "docker" ||
    strIncludes d "kubernetes" || strIncludes d "ci/cd" ||
    strIncludes d "infrastructure"

/-- `this.state.agentStates.get(CODE_REVIEWER)` as the worker sub-state it
denotes (`undefined` whether the key is absent or bound to `undefined`). -/
def reviewSubState (s : HeliosSwarmState) : Option AgentSubState :=
  (mapGet s.agentStates .code_reviewer).bind id

/-- `hasFailedReview` (projects.ts 853–857):
`reviewState?.reviewPassed === false`. -/
def hasFailedReview (s : HeliosSwarmState) : Bool :=
  match reviewSubState s with
  | some sub => decide (sub.reviewPassed = some false)
  | none => false

/-- `determineEngineerForFixes` (projects.ts 862–876).  Note the fallback
branch tests `agentStates.has(FULLSTACK_ENGINEER)` — presence of a
recorded sub-state entry — not registration in the worker registry. -/
def determineEngineerForFixes (s : HeliosSwarmState) : AgentRole :=
  let issueType := (reviewSubState s).bind (·.issueType)
  if issueType = some "frontend" then .frontend_engineer
  else if issueType = some "backend" then .backend_engineer
  else if mapHas s.agentStates .fullstack_engineer then .fullstack_engineer
  else .frontend_engineer

/-- `routeToNextAgent` (projects.ts 739–826): an explicitly set
`nextAgent` wins and is consumed; otherwise the static table keyed on the
current role decides; `DOCUMENTATION_WRITER` and the default arm terminate
the run. -/
def routeToNextAgent (s : HeliosSwarmState) : HeliosSwarmState :=
  match s.nextAgent with
  | some r => { s with active_agent := some r, nextAgent := none }
  | none =>
    match s.active_agent with
    | some .project_analyzer => { s with active_agent := some .task_decomposer }
    | some .task_decomposer =>
        if requiresFullstack s.projectDescription then
          { s with active_agent := some .fullstack_engineer }
        else
          { s with active_agent := some .backend_engineer }
    | some .frontend_engineer => { s with active_agent := some .backend_engineer }
    | some .backend_engineer =>
        if requiresDevOps s.projectDescription then
          { s with active_agent := some .devops_engineer }
        else
          { s with active_agent := some .qa_engineer }
    | some .fullstack_engineer =>
        if requiresDevOps s.projectDescription then
          { s with active_agent := some .devops_engineer }
        else
          { s with active_agent := some .qa_engineer }
    | some .devops_engineer => { s with active_agent := some .qa_engineer }
    | some .qa_engineer => { s with active_agent := some .code_reviewer }
    | some .code_reviewer =>
        if hasFailedReview s then
          { s with active_agent := some (determineEngineerForFixes s) }
        else
          { s with active_agent := some .documentation_writer }
    | some .documentation_writer => { s with completed := true, active_agent := none }
    | _ => { s with completed := true, active_agent := none }

/-- One entry of `executionHistory` (timestamp/duration omitted). -/
structure ExecutionEntry where
  agent : AgentRole
  success : Bool
  error : Option String := none
  deriving DecidableEq, Repr

/-- The orchestrator: worker registry (roles with a registered
`AgentNode`, all default in this development), shared state and
execution history. -/
structure OrchestratorGraph where
  agents : List AgentRole
  state : HeliosSwarmState
  executionHistory : List ExecutionEntry := []
  deriving DecidableEq, Repr

/-- `getAlternativeAgent` (projects.ts 917–933). -/
def getAlternativeAgent (agents : List AgentRole) :
    AgentRole → Option AgentRole
  | .frontend_engineer | .backend_engineer =>
      if agents.contains .fullstack_engineer then some .fullstack_engineer
      else none
  | .fullstack_engineer => some .frontend_engineer
  | _ => none

/-- `error instanceof AgentError && error.code === 'MAX_RETRIES_EXCEEDED'`. -/
def isMaxRetriesError : JsError → Bool
  | .agent _ _ c _ => decide (c = some "MAX_RETRIES_EXCEEDED")
  | .plain _ => false

/-- `canRecover` (projects.ts 904–912): an `AgentError` whose code is
`MAX_RETRIES_EXCEEDED` is never recoverable; otherwise recoverability is
the existence of an alternative agent. -/
def canRecover (g : OrchestratorGraph) (agent : AgentRole) (e : JsError) :
    Bool :=
  if isMaxRetriesError e then false
  else (getAlternativeAgent g.agents agent).isSome

/-- `handleExecutionError` (projects.ts 881–899): record the error, then
either reroute to the alternative agent or terminate the run. -/
def handleExecutionError (g : OrchestratorGraph) (agent : AgentRole)
    (e : JsError) : OrchestratorGraph :=
  let s1 := { g.state with errors := g.state.errors ++ [e] }
  if canRecover g agent e then
    { g with state := { s1 with active_agent := getAlternativeAgent g.agents agent } }
  else
    { g with state := { s1 with completed := true, active_agent := none } }

/-- The `AgentError` thrown by `executeAgent` (projects.ts 667–675) when
routing points at an unregistered role. -/
def notFoundError (role : AgentRole) : JsError :=
  .agent ("Agent not found: " ++ roleName role) .orchestrator
    (some "AGENT_NOT_FOUND") none

/-- The `AgentError` with which `AgentNode.execute` (AgentNode.ts 57–68)
escalates any worker failure — retry exhaustion included — to the engine. -/
def workerEscalationError (role : AgentRole) (originalError : String) :
    JsError :=
  .agent ("Execution failed for " ++ roleName role) role
    (some "EXECUTION_FAILED") (some originalError)

/-- `executeAgent` (projects.ts 667–697) for a default worker: throw
`AGENT_NOT_FOUND` if the role is unregistered; otherwise run the default
body, merge its partial update, then copy the executing role's
`agentStates` entry (`Map.set(role, stateUpdates.agentStates.get(role))`,
which inserts the key even when `get` yields `undefined`). -/
def executeAgent (g : OrchestratorGraph) (role : AgentRole) (now : Nat) :
    Except JsError OrchestratorGraph :=
  if g.agents.contains role then
    let upd := performRoleSpecificExecution role g.state now
    let s1 := updateState g.state upd now
    let s2 := match upd.agentStates with
      | some as => { s1 with
          agentStates := mapSet s1.agentStates role ((mapGet as role).bind id) }
      | none => s1
    .ok { g with state := s2 }
  else
    .error (notFoundError role)

/-! ## Main loop — `OrchestratorGraph.run` (projects.ts 597–662) -/

/-- The observable points of a run named by the specification: after the
merge of a worker's partial update, after a routing decision, after an
error-recovery decision, and when the main loop exits. -/
inductive ObsKind where
  | merge | routing | recovery | exitLoop
  deriving DecidableEq, Repr

/-- The `(completed, active_agent)` pair at one observable point. -/
structure Obs where
  kind : ObsKind
  completed : Bool
  active : Option AgentRole
  deriving DecidableEq, Repr

/-- The `while (!this.state.completed && this.state.active_agent)` loop of
`run` (projects.ts 613–646), with default workers.  On success the engine
appends a history entry and routes; on a thrown error it appends a failure
entry and applies `handleExecutionError`.  Besides the final graph it
returns the sequence of roles the loop attempted and the observable trace.
`fuel` only bounds the recursion; every scenario below is given enough. -/
def runLoop : Nat → OrchestratorGraph → Nat →
    OrchestratorGraph × List AgentRole × List Obs
  | 0, g, _ => (g, [], [])
  | fuel + 1, g, now =>
    if g.state.completed = false ∧ g.state.active_agent ≠ none then
      match g.state.active_agent with
      | some current =>
        (match executeAgent g current now with
         | .ok g1 =>
            let g2 := { g1 with
              executionHistory := g1.executionHistory ++ [ExecutionEntry.mk current true none] }
            let g3 := { g2 with state := routeToNextAgent g2.state }
            let r := runLoop fuel g3 (now + 1)
            (r.1, current :: r.2.1,
              Obs.mk .merge g1.state.completed g1.state.active_agent ::
              Obs.mk .routing g3.state.completed g3.state.active_agent :: r.2.2)
         | .error e =>
            let g1 := { g with
              executionHistory := g.executionHistory ++
                [ExecutionEntry.mk current false (some e.message)] }
            let g2 := handleExecutionError g1 current e
            let r := runLoop fuel g2 (now + 1)
            (r.1, current :: r.2.1,
              Obs.mk .recovery g2.state.completed g2.state.active_agent :: r.2.2))
      | none => (g, [], [])
    else (g, [], [Obs.mk .exitLoop g.state.completed g.state.active_agent])

/-- `generateExecutionSummary` (projects.ts, duration omitted). -/
def generateExecutionSummary (g : OrchestratorGraph) : ExecutionSummary :=
  { projectId := g.state.projectId
    projectName := g.state.projectName
    completed := g.state.completed
    agentsExecuted := g.executionHistory.length
    successfulExecutions := (g.executionHistory.filter (·.success)).length
    failedExecutions := (g.executionHistory.filter (fun h => !h.success)).length
    artifactsGenerated := g.state.artifacts.length
    tasksCompleted :=
      (g.state.tasks.filter (fun t => t.status = TaskStatus.completed)).length
    errors := g.state.errors.map JsError.message }

/-- `finalizeExecution`: store the summary into `finalOutput`. -/
def finalizeExecution (g : OrchestratorGraph) : OrchestratorGraph :=
  { g with state := { g.state with
      finalOutput := some (generateExecutionSummary g) } }

/-- Result of a whole `run` call. -/
structure RunResult where
  graph : OrchestratorGraph
  executed : List AgentRole
  trace : List Obs
  deriving DecidableEq, Repr

/-- `OrchestratorGraph.run` (projects.ts 597–662): set the initial agent
(`initialAgent || PROJECT_ANALYZER`), run the loop, finalize. -/
def runGraph (g : OrchestratorGraph) (initialAgent : Option AgentRole)
    (fuel : Nat) : RunResult :=
  let g0 := { g with state := { g.state with
    active_agent := some (initialAgent.getD .project_analyzer) } }
  let r := runLoop fuel g0 0
  ⟨finalizeExecution r.1, r.2.1, r.2.2⟩

/-- The state literal built by the `OrchestratorGraph` constructor. -/
def initialState (projectId projectName projectDescription : String) :
    HeliosSwarmState :=
  { projectId := projectId
    projectName := projectName
    projectDescription := projectDescription
    active_agent := none
    messages := []
    tasks := []
    currentTaskId := none
    taskDependencies := []
    artifacts := []
    agentStates := []
    errors := []
    createdAt := 0
    updatedAt := 0
    completed := false }

/-- The default roster registered by `initializeDefaultAgents`. -/
def defaultRoles : List AgentRole :=
  [.project_analyzer, .task_decomposer, .frontend_engineer,
   .backend_engineer, .fullstack_engineer, .devops_engineer,
   .qa_engineer, .code_reviewer, .documentation_writer]

/-- A freshly constructed graph over the default roster. -/
def mkGraph (projectId projectName projectDescription : String) :
    OrchestratorGraph :=
  { agents := defaultRoles
    state := initialState projectId projectName projectDescription
    executionHistory := [] }

/-! Scenario A: a run over the default roster for the description
"Build a deployed fullstack chat app". -/

/-- The Scenario A graph. -/
def scenarioAGraph : OrchestratorGraph :=
  mkGraph "p1" "chat-app" "Build a deployed fullstack chat app"

/-- The Scenario A run (20 loop iterations of fuel are ample). -/
def scenarioA : RunResult := runGraph scenarioAGraph none 20

/-! ## Concrete inputs used by witnesses and counterexamples -/

/-- An operation failing twice (errors 7, 8) and then succeeding with 42. -/
def wOp : Nat → Except Nat Nat
  | 0 => .error 7
  | 1 => .error 8
  | _ => .ok 42

/-- A sample handoff record. -/
def h1R : HandoffRecord :=
  { from_agent := .project_analyzer, to_agent := .task_decomposer,
    reason := "analysis complete", timestamp := 1 }

/-- A second sample handoff record. -/
def h2R : HandoffRecord :=
  { from_agent := .task_decomposer, to_agent := .backend_engineer,
    reason := "decomposition complete", timestamp := 2 }

/-- A state that already carries one handoff record. -/
def c2State : HeliosSwarmState :=
  { initialState "p1" "n" "d" with handoff_history := some [h1R] }

/-- A partial update carrying one further handoff record. -/
def c2Update : StatePartial := { handoff_history := some [h2R] }

/-- A CodeReviewer sub-state: review failed, issue type neither
"frontend" nor "backend". -/
def c6ReviewSub : AgentSubState :=
  { reviewPassed := some false, issueType := some "style" }

/-- A state in which the CodeReviewer just failed the review with issue
type "style" and the fullstack worker has no recorded sub-state. -/
def c6State : HeliosSwarmState :=
  { initialState "p6" "n" "d" with
    active_agent := some .code_reviewer,
    agentStates := [(.code_reviewer, some c6ReviewSub)] }

/-- The default roster around `c6State`: the fullstack engineer is
registered as a worker. -/
def c6Graph : OrchestratorGraph :=
  { agents := defaultRoles, state := c6State }

/-- A graph whose roster lacks the fullstack engineer while routing points
at it. -/
def c7Graph : OrchestratorGraph :=
  { agents := [.project_analyzer, .task_decomposer, .frontend_engineer,
               .backend_engineer, .devops_engineer, .qa_engineer,
               .code_reviewer, .documentation_writer]
    state := { initialState "p7" "n" "d" with
      active_agent := some .fullstack_engineer } }

/-- `handleExecutionError` applied to the error with which a worker
failure (retry exhaustion included) escalates to the engine. -/
def afterWorkerFailure (g : OrchestratorGraph) (role : AgentRole)
    (m : String) : OrchestratorGraph :=
  handleExecutionError g role (workerEscalationError role m)

/-- `handleExecutionError` applied to the `AGENT_NOT_FOUND` error thrown
when routing points at an unregistered role. -/
def afterNotFound (g : OrchestratorGraph) (role : AgentRole) :
    OrchestratorGraph :=
  handleExecutionError g role (notFoundError role)

/-! ## Theorems -/

/-- Splitting `List.range` exponential-backoff delay lists at the head. -/
theorem range_pow_cons (d a k : Nat) :
    d * 2 ^ a :: (List.range k).map (fun i => d * 2 ^ (a + 1 + i))
      = (List.range (k + 1)).map (fun i => d * 2 ^ (a + i)) := by
  rw [List.range_succ_eq_map, List.map_cons, List.map_map]
  refine congrArg₂ _ (by rw [Nat.add_zero]) ?_
  refine List.map_congr_left fun i _ => ?_
  have h : a + 1 + i = a + (i + 1) := by omega
  simp [Function.comp, h]

/-- If invocations `0..k-1` fail, invocation `k` fails with `e`, and the
counter starts at `a` with `maxRetries - a = k ≤ maxRetries`, the wrapper
performs `k` backoff sleeps, rethrows `e`, and leaves the counter at
`maxRetries`. -/
theorem executeWithRetry_all_fail (M d : Nat) :
    ∀ (k a : Nat) (op : Nat → Except ε α) (e : ε),
      M - a = k → a ≤ M →
      (∀ i, i < k → ∃ e', op i = .error e') → op k = .error e →
      executeWithRetry M d op (some a) =
        { result := .error e, counter := some M,
          delays := (List.range k).map (fun i => d * 2 ^ (a + i)),
          invocations := k + 1 } := by
  intro k
  induction k with
  | zero =>
      intro a op e hk ha _ hlast
      have haM : a = M := by omega
      subst haM
      rw [executeWithRetry, hlast]
      simp
  | succ k ih =>
      intro a op e hk ha hfail hlast
      obtain ⟨e0, hop0⟩ := hfail 0 (Nat.succ_pos k)
      have haM : a < M := by omega
      rw [executeWithRetry, hop0]
      simp only [Option.getD_some, haM, dite_true]
      rw [ih (a + 1) (fun i => op (i + 1)) e (by omega) (by omega)
        (fun i hi => hfail (i + 1) (by omega)) hlast]
      rw [range_pow_cons d a k]

/-- If invocations `0..k-1` fail, invocation `k` succeeds with `v`, and the
counter starts at `a` with `a + k ≤ maxRetries`, the wrapper performs `k`
backoff sleeps, returns `v`, and deletes the counter entry. -/
theorem executeWithRetry_eventually_ok (M d : Nat) :
    ∀ (k : Nat) (a : Nat) (op : Nat → Except ε α) (v : α),
      a + k ≤ M →
      (∀ i, i < k → ∃ e', op i = .error e') → op k = .ok v →
      executeWithRetry M d op (some a) =
        { result := .ok v, counter := none,
          delays := (List.range k).map (fun i => d * 2 ^ (a + i)),
          invocations := k + 1 } := by
  intro k
  induction k with
  | zero =>
      intro a op v _ _ hok
      rw [executeWithRetry, hok]
      simp
  | succ k ih =>
      intro a op v hk hfail hok
      obtain ⟨e0, hop0⟩ := hfail 0 (Nat.succ_pos k)
      have haM : a < M := by omega
      rw [executeWithRetry, hop0]
      simp only [Option.getD_some, haM, dite_true]
      rw [ih (a + 1) (fun i => op (i + 1)) v (by omega)
        (fun i hi => hfail (i + 1) (by omega)) hok]
      rw [range_pow_cons d a k]

/-- Exhaustion from a fresh counter: if every invocation fails
(`op i = .error (es i)`) and `0 < maxRetries`, the call starting with no
stored counter performs exactly `maxRetries` backoff sleeps, invokes the
operation `maxRetries + 1` times, rethrows the error of the last
invocation, and leaves the stored counter at `maxRetries`. -/
theorem executeWithRetry_exhaust_fresh (M d : Nat) (es : Nat → ε) (α : Type)
    (hM : 0 < M) :
    executeWithRetry M d (fun i => (Except.error (es i) : Except ε α)) none =
      { result := .error (es M), counter := some M,
        delays := (List.range M).map (fun i => d * 2 ^ i),
        invocations := M + 1 } := by
  rw [executeWithRetry]
  simp only [Option.getD_none, hM, dite_true]
  rw [executeWithRetry_all_fail M d (M - 1) 1
    (fun i => (Except.error (es (i + 1)) : Except ε α)) (es M)
    (by omega) (by omega) (fun i _ => ⟨es (i + 1), rfl⟩)
    (by simp only []; rw [Nat.sub_add_cancel hM])]
  have h1 : M - 1 + 1 = M := Nat.sub_add_cancel hM
  have h2 := range_pow_cons d 0 (M - 1)
  rw [h1] at h2
  simp only [Nat.zero_add] at h2
  rw [h2, h1]

/-- `range_pow_cons` specialised to a zero starting exponent. -/
theorem range_pow_cons_zero (d k : Nat) :
    d * 2 ^ 0 :: (List.range k).map (fun i => d * 2 ^ (1 + i))
      = (List.range (k + 1)).map (fun i => d * 2 ^ i) := by
  have h := range_pow_cons d 0 k
  simp only [Nat.zero_add] at h
  exact h

/-- Claim C1: if every invocation of the operation fails, the retry
wrapper stops after exactly `maxRetries` retries (`maxRetries` backoff
sleeps, hence `maxRetries + 1` invocations), the raised error is the last
underlying error — the failure is not swallowed — and the attempt counter
stored under the operation name at that point is `maxRetries`. -/
theorem claim_C1_retry_exhaustion (maxRetries retryDelay : Nat)
    (es : Nat → ε) (α : Type) (h : 0 < maxRetries) :
    (executeWithRetry maxRetries retryDelay
        (fun i => (Except.error (es i) : Except ε α)) none).result
      = .error (es maxRetries)
    ∧ (executeWithRetry maxRetries retryDelay
        (fun i => (Except.error (es i) : Except ε α)) none).delays.length
      = maxRetries
    ∧ (executeWithRetry maxRetries retryDelay
        (fun i => (Except.error (es i) : Except ε α)) none).invocations
      = maxRetries + 1
    ∧ (executeWithRetry maxRetries retryDelay
        (fun i => (Except.error (es i) : Except ε α)) none).counter
      = some maxRetries := by
  rw [executeWithRetry_exhaust_fresh maxRetries retryDelay es α h]
  simp

/-- Witness for C1 at `maxRetries = 3`, `retryDelay = 1000`. -/
theorem claim_C1_retry_exhaustion_witness :
    (executeWithRetry 3 1000
        (fun i => (Except.error i : Except Nat Nat)) none).result
      = .error 3
    ∧ (executeWithRetry 3 1000
        (fun i => (Except.error i : Except Nat Nat)) none).delays.length = 3
    ∧ (executeWithRetry 3 1000
        (fun i => (Except.error i : Except Nat Nat)) none).invocations = 3 + 1
    ∧ (executeWithRetry 3 1000
        (fun i => (Except.error i : Except Nat Nat)) none).counter = some 3 :=
  claim_C1_retry_exhaustion 3 1000 (fun i => i) Nat (by omega)

/-- Claim C8: an operation that fails exactly `k < maxRetries` times and
then succeeds makes the wrapper return the success value and delete the
stored attempt counter, after waiting `retryDelay * 2 ^ i` before the
`i`-th re-attempt, `i = 0, …, k-1`. -/
theorem claim_C8_retry_success_resets (maxRetries retryDelay k : Nat)
    (op : Nat → Except ε α) (v : α) (hk : k < maxRetries)
    (hfail : ∀ i, i < k → ∃ e, op i = .error e) (hok : op k = .ok v) :
    executeWithRetry maxRetries retryDelay op none =
      { result := .ok v, counter := none,
        delays := (List.range k).map (fun i => retryDelay * 2 ^ i),
        invocations := k + 1 } := by
  match k, hk with
  | 0, _ =>
      rw [executeWithRetry, hok]
      simp
  | j + 1, hk =>
      obtain ⟨e0, hop0⟩ := hfail 0 (Nat.succ_pos j)
      have h0 : 0 < maxRetries := by omega
      rw [executeWithRetry, hop0]
      simp only [Option.getD_none, Nat.zero_add, dif_pos h0]
      rw [executeWithRetry_eventually_ok maxRetries retryDelay j 1
        (fun i => op (i + 1)) v (by omega)
        (fun i hi => hfail (i + 1) (by omega)) (by simpa using hok)]
      simp only [range_pow_cons_zero]

/-- Witness for C8: `wOp` fails twice (errors 7, 8) then returns 42. -/
theorem claim_C8_retry_success_resets_witness :
    executeWithRetry 3 1000 wOp none =
      { result := .ok 42, counter := none,
        delays := (List.range 2).map (fun i => 1000 * 2 ^ i),
        invocations := 2 + 1 } :=
  claim_C8_retry_success_resets 3 1000 2 wOp 42 (by omega)
    (fun i hi => by
      match i, hi with
      | 0, _ => exact ⟨7, rfl⟩
      | 1, _ => exact ⟨8, rfl⟩)
    rfl

/-- Claim C10: after an exhaustion run the counter stored for the
operation name stays at `maxRetries` (it is deleted only on success), and
a subsequent call entered with that counter whose first invocation fails
rethrows immediately: one invocation, no backoff sleep, counter
unchanged. -/
theorem claim_C10_stale_counter_rethrows (maxRetries retryDelay : Nat)
    (es : Nat → ε) (op : Nat → Except ε α) (e : ε)
    (hM : 0 < maxRetries) (hop : op 0 = .error e) :
    (executeWithRetry maxRetries retryDelay
        (fun i => (Except.error (es i) : Except ε α)) none).counter
      = some maxRetries
    ∧ executeWithRetry maxRetries retryDelay op (some maxRetries) =
        { result := .error e, counter := some maxRetries,
          delays := [], invocations := 1 } := by
  constructor
  · rw [executeWithRetry_exhaust_fresh maxRetries retryDelay es α hM]
  · rw [executeWithRetry, hop]
    simp

/-- Witness for C10 at `maxRetries = 3`. -/
theorem claim_C10_stale_counter_rethrows_witness :
    (executeWithRetry 3 1000
        (fun i => (Except.error i : Except Nat Nat)) none).counter = some 3
    ∧ executeWithRetry 3 1000 (fun _ => (Except.error 9 : Except Nat Nat))
        (some 3) =
        { result := .error 9, counter := some 3,
          delays := [], invocations := 1 } :=
  claim_C10_stale_counter_rethrows 3 1000 (fun i => i)
    (fun _ => (Except.error 9 : Except Nat Nat)) 9 (by omega) rfl

/-- Counterexample to claim C2: `updateState` does not append
`handoff_history` — a partial update carrying `[h2R]` over a state
carrying `[h1R]` leaves `[h2R]`, not `[h1R, h2R]`: the field is replaced
wholesale. -/
theorem claim_C2_counterexample :
    (updateState c2State c2Update 3).handoff_history ≠ some [h1R, h2R]
    ∧ (updateState c2State c2Update 3).handoff_history = some [h2R] := by
  decide

/-- Claim C2 as amended: `messages`, `tasks` and `errors` present in a
partial update are concatenated after the prior sequence (the prior
sequence is a prefix, nothing is removed), but a present
`handoff_history` replaces the prior value instead of being appended. -/
theorem claim_C2_merge_appends (s : HeliosSwarmState) (u : StatePartial)
    (now : Nat) :
    (updateState s u now).messages = s.messages ++ u.messages.getD []
    ∧ (updateState s u now).tasks = s.tasks ++ u.tasks.getD []
    ∧ (updateState s u now).errors = s.errors ++ u.errors.getD []
    ∧ (updateState s u now).handoff_history
      = u.handoff_history.or s.handoff_history := by
  refine ⟨?_, ?_, ?_, ?_⟩
  · cases h : u.messages <;> simp [updateState, h]
  · cases h : u.tasks <;> simp [updateState, h]
  · cases h : u.errors <;> simp [updateState, h]
  · cases h : u.handoff_history <;> simp [updateState, Option.or, h]

/-- Claim C9: merging a default worker's update doubles the message list
and adds one: the worker returns the entire prior message list plus one
new message, and the merge concatenates it onto the prior list, giving
`prior ++ (prior ++ [new])`, of length `2 * n + 1`. -/
theorem claim_C9_default_worker_duplication (s : HeliosSwarmState)
    (role : AgentRole) (now tmerge : Nat) :
    (updateState s (performRoleSpecificExecution role s now) tmerge).messages
      = s.messages ++ (s.messages ++ [defaultMessage role now])
    ∧ (updateState s (performRoleSpecificExecution role s now)
        tmerge).messages.length
      = 2 * s.messages.length + 1 := by
  have hm : (performRoleSpecificExecution role s now).messages
      = some (s.messages ++ [defaultMessage role now]) := by
    cases role <;> rfl
  constructor
  · simp [updateState, hm]
  · simp [updateState, hm]
    omega

/-- A worker-escalated failure never carries the `MAX_RETRIES_EXCEEDED`
code: `AgentNode.execute` rewraps every failure as `EXECUTION_FAILED`. -/
theorem isMaxRetriesError_escalation (role : AgentRole) (m : String) :
    isMaxRetriesError (workerEscalationError role m) = false := rfl

/-- Nor does the `AGENT_NOT_FOUND` error. -/
theorem isMaxRetriesError_notFound (role : AgentRole) :
    isMaxRetriesError (notFoundError role) = false := rfl

/-- Claim C3: on a worker failure escalated past the retry budget, the
engine consults the recovery table: a failed FrontendEngineer or
BackendEngineer is replaced by the FullstackEngineer when that role is
registered and otherwise the run is terminally failed; a failed
FullstackEngineer is replaced by the FrontendEngineer; every other role
has no alternate and the run is terminally failed (`completed = true`,
active role `none`). -/
theorem claim_C3_recovery_table (g : OrchestratorGraph) (role : AgentRole)
    (m : String) :
    ((role = .frontend_engineer ∨ role = .backend_engineer) →
        (g.agents.contains .fullstack_engineer = true →
            (afterWorkerFailure g role m).state.active_agent
              = some .fullstack_engineer
            ∧ (afterWorkerFailure g role m).state.completed
              = g.state.completed)
        ∧ (g.agents.contains .fullstack_engineer = false →
            (afterWorkerFailure g role m).state.completed = true
            ∧ (afterWorkerFailure g role m).state.active_agent = none))
    ∧ (role = .fullstack_engineer →
        (afterWorkerFailure g role m).state.active_agent
          = some .frontend_engineer
        ∧ (afterWorkerFailure g role m).state.completed = g.state.completed)
    ∧ (role ≠ .frontend_engineer → role ≠ .backend_engineer →
       role ≠ .fullstack_engineer →
        (afterWorkerFailure g role m).state.completed = true
        ∧ (afterWorkerFailure g role m).state.active_agent = none) := by
  refine ⟨?_, ?_, ?_⟩
  · rintro (rfl | rfl) <;>
      refine ⟨fun hc => ?_, fun hc => ?_⟩ <;>
      first
        | (have hmem : AgentRole.fullstack_engineer ∈ g.agents := by
            simpa using hc
           simp [afterWorkerFailure, handleExecutionError, canRecover,
             isMaxRetriesError_escalation, getAlternativeAgent, hmem])
        | (have hmem : AgentRole.fullstack_engineer ∉ g.agents := by
            simpa using hc
           simp [afterWorkerFailure, handleExecutionError, canRecover,
             isMaxRetriesError_escalation, getAlternativeAgent, hmem])
  · rintro rfl
    simp [afterWorkerFailure, handleExecutionError, canRecover,
      isMaxRetriesError_escalation, getAlternativeAgent]
  · intro h1 h2 h3
    cases role <;>
      first
        | exact absurd rfl h1
        | exact absurd rfl h2
        | exact absurd rfl h3
        | simp [afterWorkerFailure, handleExecutionError, canRecover,
            isMaxRetriesError_escalation, getAlternativeAgent]

/-- Witness for C3: over the default roster a failed FullstackEngineer is
rerouted to the FrontendEngineer and a failed QAEngineer terminally fails
the run. -/
theorem claim_C3_recovery_table_witness :
    (afterWorkerFailure (mkGraph "p" "n" "d") .fullstack_engineer
        "boom").state.active_agent = some .frontend_engineer
    ∧ (afterWorkerFailure (mkGraph "p" "n" "d") .qa_engineer
        "boom").state.completed = true :=
  ⟨((claim_C3_recovery_table (mkGraph "p" "n" "d") .fullstack_engineer
      "boom").2.1 rfl).1,
   ((claim_C3_recovery_table (mkGraph "p" "n" "d") .qa_engineer
      "boom").2.2 (by decide) (by decide) (by decide)).1⟩

/-- Counterexample to claim C6: with the review failed, issue type
`"style"`, the fullstack engineer registered as a worker but owning no
`agentStates` entry, routing selects the FrontendEngineer — not the
registered fullstack role the claim requires. -/
theorem claim_C6_counterexample :
    c6Graph.agents.contains .fullstack_engineer = true
    ∧ c6Graph.state.nextAgent = none
    ∧ hasFailedReview c6Graph.state = true
    ∧ (reviewSubState c6Graph.state).bind (fun sub => sub.issueType)
      = some "style"
    ∧ (routeToNextAgent c6Graph.state).active_agent
      = some .frontend_engineer
    ∧ (routeToNextAgent c6Graph.state).active_agent
      ≠ some .fullstack_engineer := by
  decide

/-- Claim C6 as amended: when the CodeReviewer finished with
`reviewPassed = false` and no override is pending, the next active role is
`determineEngineerForFixes`: `"frontend"` → FrontendEngineer, `"backend"`
→ BackendEngineer, otherwise the fullstack role if `agentStates` has an
entry for it (recorded sub-state, not registry membership), else
FrontendEngineer. -/
theorem claim_C6_review_failure_routing (s : HeliosSwarmState)
    (hover : s.nextAgent = none)
    (hact : s.active_agent = some .code_reviewer)
    (hfail : hasFailedReview s = true) :
    (routeToNextAgent s).active_agent = some (determineEngineerForFixes s)
    ∧ ((reviewSubState s).bind (fun sub => sub.issueType) = some "frontend" →
        determineEngineerForFixes s = .frontend_engineer)
    ∧ ((reviewSubState s).bind (fun sub => sub.issueType) = some "backend" →
        determineEngineerForFixes s = .backend_engineer)
    ∧ ((reviewSubState s).bind (fun sub => sub.issueType) ≠ some "frontend" →
        (reviewSubState s).bind (fun sub => sub.issueType) ≠ some "backend" →
        determineEngineerForFixes s =
          if mapHas s.agentStates .fullstack_engineer then .fullstack_engineer
          else .frontend_engineer) := by
  refine ⟨?_, fun h => ?_, fun h => ?_, fun h1 h2 => ?_⟩
  · simp [routeToNextAgent, hover, hact, hfail]
  · simp [determineEngineerForFixes, h]
  · simp [determineEngineerForFixes, h]
  · simp [determineEngineerForFixes, h1, h2]

/-- Witness for C6 at `c6Graph.state`: review failed with issue type
`"style"`, so routing picks `determineEngineerForFixes`, which resolves
through the `agentStates` fallback. -/
theorem claim_C6_review_failure_routing_witness :
    (routeToNextAgent c6Graph.state).active_agent
      = some (determineEngineerForFixes c6Graph.state)
    ∧ determineEngineerForFixes c6Graph.state =
        (if mapHas c6Graph.state.agentStates .fullstack_engineer then
          AgentRole.fullstack_engineer
        else AgentRole.frontend_engineer) :=
  ⟨(claim_C6_review_failure_routing c6Graph.state (by decide) (by decide)
      (by decide)).1,
   (claim_C6_review_failure_routing c6Graph.state (by decide) (by decide)
      (by decide)).2.2.2 (by decide) (by decide)⟩

/-- Counterexample to claim C7: routing points at the unregistered
FullstackEngineer; `executeAgent` throws `AGENT_NOT_FOUND`, but the
engine's error handler continues the run with the FrontendEngineer
alternate instead of terminating — the failure is not "always fatal". -/
theorem claim_C7_counterexample :
    executeAgent c7Graph .fullstack_engineer 0
      = .error (notFoundError .fullstack_engineer)
    ∧ (afterNotFound c7Graph .fullstack_engineer).state.completed = false
    ∧ (afterNotFound c7Graph .fullstack_engineer).state.active_agent
      = some .frontend_engineer :=
  ⟨rfl, by decide, by decide⟩

/-- Claim C7 as amended: a `RoleNotFound` failure is handled through the
same recovery table as any other non-`MAX_RETRIES_EXCEEDED` error: the
run is terminally failed exactly when `getAlternativeAgent` offers no
alternate for the missing role; otherwise the run continues with the
alternate role. -/
theorem claim_C7_role_not_found (g : OrchestratorGraph) (role : AgentRole)
    (now : Nat) (h : g.agents.contains role = false) :
    executeAgent g role now = .error (notFoundError role)
    ∧ (getAlternativeAgent g.agents role).elim
        ((afterNotFound g role).state.completed = true
          ∧ (afterNotFound g role).state.active_agent = none)
        (fun alt =>
          (afterNotFound g role).state.active_agent = some alt
          ∧ (afterNotFound g role).state.completed = g.state.completed) := by
  constructor
  · have hmem : role ∉ g.agents := by simpa using h
    simp [executeAgent, hmem]
  · cases halt : getAlternativeAgent g.agents role with
    | none =>
        simp [Option.elim, afterNotFound, handleExecutionError, canRecover,
          isMaxRetriesError_notFound, halt]
    | some alt =>
        simp [Option.elim, afterNotFound, handleExecutionError, canRecover,
          isMaxRetriesError_notFound, halt]

/-- Witness for C7 at `c7Graph`: the missing FullstackEngineer has the
FrontendEngineer as alternate, so the run continues. -/
theorem claim_C7_role_not_found_witness :
    executeAgent c7Graph .fullstack_engineer 5
      = .error (notFoundError .fullstack_engineer)
    ∧ (getAlternativeAgent c7Graph.agents .fullstack_engineer).elim
        ((afterNotFound c7Graph .fullstack_engineer).state.completed = true
          ∧ (afterNotFound c7Graph .fullstack_engineer).state.active_agent
            = none)
        (fun alt =>
          (afterNotFound c7Graph .fullstack_engineer).state.active_agent
            = some alt
          ∧ (afterNotFound c7Graph .fullstack_engineer).state.completed
            = c7Graph.state.completed) :=
  claim_C7_role_not_found c7Graph .fullstack_engineer 5 (by decide)

/-- Counterexample to claim C4: for the Scenario A description the
executed role sequence is not the claimed
Analyzer, TaskDecomposer, FullstackEngineer, DevOpsEngineer, QAEngineer,
CodeReviewer, DocumentationWriter — the default workers' explicit
`nextAgent` overrides preempt the description-based routing table. -/
theorem claim_C4_counterexample :
    scenarioA.executed ≠
      [.project_analyzer, .task_decomposer, .fullstack_engineer,
       .devops_engineer, .qa_engineer, .code_reviewer,
       .documentation_writer] := by
  decide

/-- Claim C4 as amended: Scenario A executes exactly
Analyzer, TaskDecomposer, BackendEngineer, FrontendEngineer, QAEngineer,
CodeReviewer, DocumentationWriter, and the run ends with
`completed = true` (and no active role). -/
theorem claim_C4_scenario_a :
    scenarioA.executed =
      [.project_analyzer, .task_decomposer, .backend_engineer,
       .frontend_engineer, .qa_engineer, .code_reviewer,
       .documentation_writer]
    ∧ scenarioA.graph.state.completed = true
    ∧ scenarioA.graph.state.active_agent = none := by
  decide

/-- Counterexample to claim C5: the Scenario A trace has an observable
point — right after the merge of the DocumentationWriter's update — where
`completed = true` while the active role is still set. -/
theorem claim_C5_counterexample :
    ¬ (∀ o ∈ scenarioA.trace, o.completed = true → o.active = none)
    ∧ Obs.mk .merge true (some .documentation_writer) ∈ scenarioA.trace := by
  decide

/-- Claim C5 as amended: in the Scenario A run, `completed = true` implies
no active role at every observable point other than immediately after a
merge; the sole merge-point violation is the DocumentationWriter's, which
the following routing decision repairs. -/
theorem claim_C5_invariant_after_routing :
    (scenarioA.trace.filter (fun o => o.kind != ObsKind.merge)).all
      (fun o => !o.completed || o.active == none) = true
    ∧ (scenarioA.trace.filter
        (fun o => o.kind == ObsKind.merge && o.completed)).all
      (fun o => o.active == some AgentRole.documentation_writer) = true := by
  decide

end Helios
